import Mathlib

/-!
Verification of `src/util/macros.h` of the godot_voxel repository.

The header defines two facilities:
* `ZN_ARRAY_LENGTH(a)` = `(sizeof(a) / sizeof(a[0]))`
* branch hints: under `__GNUC__`, `ZN_LIKELY(x)` = `__builtin_expect(!!(x), 1)`
  and `ZN_UNLIKELY(x)` = `__builtin_expect(!!(x), 0)`; otherwise both are `x`.

We shallowly embed the relevant fragment of C++ semantics: a type grammar
with `sizeof`, the subscript type `a[0]`, array-to-pointer decay, integer
truthiness, double negation `!!`, and the value semantics of
`__builtin_expect` (which returns its first argument's value; the second
argument is only an optimizer hint and does not affect the value).
-/

namespace ZnMacros

/-- A fragment of the C++ object-type grammar sufficient for the header:
scalar types carry their byte size, pointers have a fixed byte size, and
fixed-size arrays record element type and compile-time length. -/
inductive CType where
  | scalar (size : Nat)
  | pointer (pointee : CType)
  | array (elem : CType) (n : Nat)
  deriving DecidableEq, Repr

/-- Byte size of a pointer on the modelled target (64-bit). -/
def pointerSize : Nat := 8

/-- The C++ `sizeof` operator on our type fragment:
`sizeof(T[N]) = N * sizeof(T)`, pointers have the target pointer size. -/
def sizeofC : CType → Nat
  | .scalar s => s
  | .pointer _ => pointerSize
  | .array e n => n * sizeofC e

/-- The static type of the expression `a[0]` given the type of `a`:
for an array it is the element type, for a pointer the pointee type.
(Subscripting anything else is ill-formed; we return the type unchanged
so the function stays total.) -/
def subscriptType : CType → CType
  | .array e _ => e
  | .pointer e => e
  | t => t

/-- A complete object type has a positive byte size, recursively
(every scalar occupies at least one byte, arrays are nonempty). -/
def isCompleteB : CType → Bool
  | .scalar s => 0 < s
  | .pointer _ => true
  | .array e n => 0 < n && isCompleteB e

/-- Propositional form of completeness. -/
def isComplete (t : CType) : Prop :=
  isCompleteB t = true

instance : DecidablePred isComplete := fun _ =>
  inferInstanceAs (Decidable (_ = true))

/-- `ZN_ARRAY_LENGTH(a)` = `(sizeof(a) / sizeof(a[0]))` : the byte size of
the whole object divided by the byte size of its first element, computed
from the static type of `a` alone. -/
def ZN_ARRAY_LENGTH (t : CType) : Nat :=
  sizeofC t / sizeofC (subscriptType t)

/-- Array-to-pointer decay: in C++, an array `T[N]` passed where a pointer
is expected decays to `T*`; other types are unchanged. -/
def decayType : CType → CType
  | .array e _ => .pointer e
  | t => t

/-- A runtime value of array type: its static type together with its
runtime contents (a list of bytes). `ZN_ARRAY_LENGTH` must not look at
the contents. -/
structure CValue where
  type : CType
  contents : List Nat
  deriving DecidableEq, Repr

/-- `ZN_ARRAY_LENGTH` applied to a value: `sizeof` is a purely static
operator, so only the static type of the argument is consulted. -/
def znArrayLengthVal (v : CValue) : Nat :=
  ZN_ARRAY_LENGTH v.type

/-- C truthiness of a scalar: nonzero is true. -/
def ctruthy (x : Int) : Bool :=
  x ≠ 0

/-- The C `!` operator on a scalar value: `!x` is `1` when `x` is zero,
else `0`. -/
def cnot (x : Int) : Int :=
  if x = 0 then 1 else 0

/-- The value semantics of GCC's `__builtin_expect(x, expected)`: it
returns the value of `x`; `expected` is only a hint to the optimizer and
never affects the returned value. -/
def builtin_expect (x : Int) (expected : Int) : Int :=
  x

/-- `ZN_LIKELY(x)` under `__GNUC__`: `__builtin_expect(!!(x), 1)`. -/
def zn_likely_gnuc (x : Int) : Int :=
  builtin_expect (cnot (cnot x)) 1

/-- `ZN_UNLIKELY(x)` under `__GNUC__`: `__builtin_expect(!!(x), 0)`. -/
def zn_unlikely_gnuc (x : Int) : Int :=
  builtin_expect (cnot (cnot x)) 0

/-- `ZN_LIKELY(x)` on the fallback (non-`__GNUC__`) branch: just `x`. -/
def zn_likely_fallback (x : Int) : Int :=
  x

/-- `ZN_UNLIKELY(x)` on the fallback (non-`__GNUC__`) branch: just `x`. -/
def zn_unlikely_fallback (x : Int) : Int :=
  x

/-- The C++ boolean values as scalars: `true` converts to `1`, `false`
to `0`. -/
def cbool (b : Bool) : Int :=
  if b then 1 else 0

/-- A conditional branching on a C scalar condition: takes the first
branch exactly when the condition is truthy (nonzero). -/
def cbranch {α : Type} (c : Int) (t f : α) : α :=
  if ctruthy c then t else f

end ZnMacros

namespace ZnMacros

/-- A complete type occupies at least one byte. -/
theorem isComplete_sizeof_pos (t : CType) (h : isComplete t) :
    0 < sizeofC t := by
  induction t with
  | scalar s => simpa [isComplete, isCompleteB] using h
  | pointer _ _ => simp [sizeofC, pointerSize]
  | array e n ih =>
    simp only [isComplete, isCompleteB, Bool.and_eq_true,
      decide_eq_true_eq] at h
    exact Nat.mul_pos h.1 (ih h.2)

/-- C1: for every element type of positive size and every compile-time
length `N`, `ZN_ARRAY_LENGTH` applied to the array type `T[N]` evaluates
to exactly `N` (including `N = 1` and large `N` such as `1024`). -/
theorem array_length_correct (e : CType) (N : Nat) (h : 0 < sizeofC e) :
    ZN_ARRAY_LENGTH (.array e N) = N := by
  simp [ZN_ARRAY_LENGTH, subscriptType, sizeofC, Nat.mul_div_cancel _ h]

/-- Witness for C1: concrete arrays of 4-byte elements with lengths `1`
and `1024` both report their exact length. -/
theorem array_length_correct_witness :
    ZN_ARRAY_LENGTH (.array (.scalar 4) 1) = 1 ∧
    ZN_ARRAY_LENGTH (.array (.scalar 4) 1024) = 1024 :=
  ⟨array_length_correct (.scalar 4) 1 (by decide),
   array_length_correct (.scalar 4) 1024 (by decide)⟩

/-- C2: for every boolean value `b`, `ZN_LIKELY(b)` and `ZN_UNLIKELY(b)`
are the boolean value `b` itself, on both the `__GNUC__` branch and the
fallback branch. -/
theorem likely_unlikely_bool_identity (b : Bool) :
    zn_likely_gnuc (cbool b) = cbool b ∧
    zn_unlikely_gnuc (cbool b) = cbool b ∧
    zn_likely_fallback (cbool b) = cbool b ∧
    zn_unlikely_fallback (cbool b) = cbool b := by
  cases b <;> decide

/-- C3: applying `ZN_ARRAY_LENGTH` to the decayed pointer of a concrete
array (an `int[3]`, element size 4) silently yields the pointer byte size
divided by the element byte size (`8 / 4 = 2`), which differs from the
original length `3`; the macro yields a numeric value rather than failing. -/
theorem array_length_pointer_wrong :
    ZN_ARRAY_LENGTH (decayType (.array (.scalar 4) 3)) =
      pointerSize / sizeofC (.scalar 4) ∧
    ZN_ARRAY_LENGTH (decayType (.array (.scalar 4) 3)) = 2 ∧
    ZN_ARRAY_LENGTH (.array (.scalar 4) 3) = 3 ∧
    ZN_ARRAY_LENGTH (decayType (.array (.scalar 4) 3)) ≠
      ZN_ARRAY_LENGTH (.array (.scalar 4) 3) := by
  decide

/-- C4: on the fallback (non-`__GNUC__`) branch, `ZN_LIKELY` and
`ZN_UNLIKELY` return their argument unchanged for every input, so the
identity law holds on the fallback path. -/
theorem fallback_identity (x : Int) :
    zn_likely_fallback x = x ∧ zn_unlikely_fallback x = x :=
  ⟨rfl, rfl⟩

/-- C5: a conditional branching on `ZN_LIKELY(c)` or `ZN_UNLIKELY(c)`
selects the same branch — hence produces the same output — as the same
conditional branching on `c` directly, in both the `__GNUC__` and the
fallback compilation branch, for every condition and every pair of
branch outcomes. -/
theorem hint_preserves_branching {α : Type} (c : Int) (t f : α) :
    cbranch (zn_likely_gnuc c) t f = cbranch c t f ∧
    cbranch (zn_unlikely_gnuc c) t f = cbranch c t f ∧
    cbranch (zn_likely_fallback c) t f = cbranch c t f ∧
    cbranch (zn_unlikely_fallback c) t f = cbranch c t f := by
  refine ⟨?_, ?_, rfl, rfl⟩ <;>
    · simp only [cbranch, zn_likely_gnuc, zn_unlikely_gnuc, builtin_expect,
        cnot, ctruthy]
      by_cases h : c = 0 <;> simp [h]

/-- C6: under the `__GNUC__` branch, `ZN_LIKELY(x)` and `ZN_UNLIKELY(x)`
evaluate to the double negation `!!(x)` — `1` when `x` is nonzero and `0`
when `x` is zero — so for integer inputs outside `{0, 1}` the returned
value differs from `x` itself, while remaining equivalent to `x` as a
branch condition. -/
theorem gnuc_normalizes_truth_value (x : Int) (h0 : x ≠ 0) (h1 : x ≠ 1) :
    zn_likely_gnuc x = cnot (cnot x) ∧
    zn_unlikely_gnuc x = cnot (cnot x) ∧
    zn_likely_gnuc x = 1 ∧
    zn_likely_gnuc x ≠ x ∧
    ctruthy (zn_likely_gnuc x) = ctruthy x := by
  have hc : zn_likely_gnuc x = 1 := by
    simp [zn_likely_gnuc, builtin_expect, cnot, h0]
  refine ⟨rfl, rfl, hc, ?_, ?_⟩
  · rw [hc]
    exact fun h => h1 h.symm
  · rw [hc]
    simp [ctruthy, h0]

/-- Witness for C6: at the concrete input `x = 5`, the `__GNUC__` branch
returns the normalized truth value `1`, not `5`. -/
theorem gnuc_normalizes_truth_value_witness :
    zn_likely_gnuc 5 = cnot (cnot 5) ∧
    zn_unlikely_gnuc 5 = cnot (cnot 5) ∧
    zn_likely_gnuc 5 = 1 ∧
    zn_likely_gnuc 5 ≠ 5 ∧
    ctruthy (zn_likely_gnuc 5) = ctruthy 5 :=
  gnuc_normalizes_truth_value 5 (by decide) (by decide)

/-- C7: `ZN_ARRAY_LENGTH` is total with no error conditions: whenever the
subscripted type is a complete object type, the divisor `sizeof(a[0])` is
at least `1`, so the division never divides by zero and the macro always
yields the mathematical quotient of the two byte sizes. -/
theorem array_length_total (t : CType) (h : isComplete (subscriptType t)) :
    1 ≤ sizeofC (subscriptType t) ∧
    ZN_ARRAY_LENGTH t * sizeofC (subscriptType t) ≤ sizeofC t :=
  ⟨isComplete_sizeof_pos _ h, Nat.div_mul_le_self _ _⟩

/-- Witness for C7: at the concrete array type `int[3]` the divisor is
positive and the quotient bound holds. -/
theorem array_length_total_witness :
    1 ≤ sizeofC (subscriptType (.array (.scalar 4) 3)) ∧
    ZN_ARRAY_LENGTH (.array (.scalar 4) 3) *
      sizeofC (subscriptType (.array (.scalar 4) 3)) ≤
      sizeofC (.array (.scalar 4) 3) :=
  array_length_total (.array (.scalar 4) 3) (by decide)

/-- C8: the result of `ZN_ARRAY_LENGTH` depends only on the static type
of its argument and never on runtime contents: any two values of the same
type yield the same result, and the result equals the purely static
computation on the type, so the argument is never evaluated. -/
theorem array_length_contents_independent (t : CType)
    (c₁ c₂ : List Nat) :
    znArrayLengthVal ⟨t, c₁⟩ = znArrayLengthVal ⟨t, c₂⟩ ∧
    znArrayLengthVal ⟨t, c₁⟩ = ZN_ARRAY_LENGTH t :=
  ⟨rfl, rfl⟩

/-- C9: for every input `x`, `ZN_LIKELY(x)` and `ZN_UNLIKELY(x)` compute
identical values on both compilation branches: the two constructs differ
only in the expected-outcome hint (`1` versus `0`), which has no effect
on the value returned by `__builtin_expect`. -/
theorem likely_eq_unlikely (x : Int) :
    zn_likely_gnuc x = zn_unlikely_gnuc x ∧
    zn_likely_fallback x = zn_unlikely_fallback x :=
  ⟨rfl, rfl⟩

/-- C10: for every fixed-size array type `T[N]` with `T` a complete type,
`ZN_ARRAY_LENGTH` yields a nonnegative integer, the element byte size
divides the total byte size exactly, and the result is exactly that
quotient `N`. -/
theorem array_length_unsigned_exact (e : CType) (N : Nat)
    (h : isComplete e) :
    sizeofC (subscriptType (.array e N)) ∣ sizeofC (.array e N) ∧
    0 ≤ ZN_ARRAY_LENGTH (.array e N) ∧
    ZN_ARRAY_LENGTH (.array e N) = N := by
  have hpos : 0 < sizeofC e := isComplete_sizeof_pos e h
  refine ⟨⟨N, ?_⟩, Nat.zero_le _, ?_⟩
  · simp [sizeofC, subscriptType, Nat.mul_comm]
  · simp [ZN_ARRAY_LENGTH, subscriptType, sizeofC, Nat.mul_div_cancel _ hpos]

/-- Witness for C10: the concrete array type `int[7]` (element size 4)
has exact division and result `7`. -/
theorem array_length_unsigned_exact_witness :
    sizeofC (subscriptType (.array (.scalar 4) 7)) ∣
      sizeofC (.array (.scalar 4) 7) ∧
    0 ≤ ZN_ARRAY_LENGTH (.array (.scalar 4) 7) ∧
    ZN_ARRAY_LENGTH (.array (.scalar 4) 7) = 7 :=
  array_length_unsigned_exact (.scalar 4) 7 (by decide)

end ZnMacros
